import Mathlib

/-!
Shallow embedding of the scoring engine of the seemycity backend
(`src/seemycity-backend/src/scoring.rs`).  The Rust `Decimal` type
(exact base-10 arithmetic) is modelled by `ℚ`; `Option` fields are
modelled by `Option`; the Rust `?` operator is explicit matching.
-/

/-- Rust `Decimal::clamp(lo, hi)` (std `Ord::clamp`): pushes a value into
`[lo, hi]`. -/
def dclamp (x lo hi : ℚ) : ℚ :=
  if x < lo then lo else if hi < x then hi else x

/- Constants from `scoring.rs` lines 7–26. -/

def WEIGHT_FIN_HEALTH : ℚ := 30 / 100
def WEIGHT_INFRA : ℚ := 25 / 100
def WEIGHT_EFFICIENCY : ℚ := 25 / 100
def WEIGHT_ACCOUNTABILITY : ℚ := 20 / 100

def REV_PER_CAPITA_MIN : ℚ := 0
def REV_PER_CAPITA_MAX : ℚ := 14000
def DEBT_RATIO_MIN : ℚ := 1 / 10
def DEBT_RATIO_MAX : ℚ := 1

def EFFICIENCY_RATIO_BEST : ℚ := 85 / 100
def EFFICIENCY_RATIO_MID : ℚ := 110 / 100
def EFFICIENCY_RATIO_WORST : ℚ := 115 / 100

def INFRA_RATIO_WORST : ℚ := 0
def INFRA_RATIO_MID : ℚ := 10 / 100
def INFRA_RATIO_BEST : ℚ := 30 / 100

/-- `ScoringInput` struct (`scoring.rs` lines 29–37).  `population` is a
Rust `u32`, modelled as `ℕ`; no arithmetic can overflow it (it is only
converted to `Decimal` and compared). -/
structure ScoringInput where
  revenue : Option ℚ
  operational_expenditure : Option ℚ
  capital_expenditure : Option ℚ
  debt : Option ℚ
  audit_outcome : Option String
  population : Option ℕ
deriving Repr, DecidableEq

/-- `ScoreBreakdown` struct (`scoring.rs` lines 40–47). -/
structure ScoreBreakdown where
  overall_score : ℚ
  financial_health_score : ℚ
  infrastructure_score : ℚ
  efficiency_score : ℚ
  accountability_score : ℚ
deriving Repr, DecidableEq

/-- `AuditOutcome` enum (`scoring.rs` lines 50–58). -/
inductive AuditOutcome where
  | Clean : AuditOutcome
  | FinanciallyUnqualified : AuditOutcome
  | Qualified : AuditOutcome
  | Adverse : AuditOutcome
  | Disclaimer : AuditOutcome
  | Unknown : String → AuditOutcome
deriving Repr, DecidableEq

/-- Rust `str::trim`: removes leading and trailing whitespace.  Modelled
structurally over the character list so it is kernel-computable. -/
def strTrim (s : String) : String :=
  ⟨((s.data.dropWhile Char.isWhitespace).reverse.dropWhile
      Char.isWhitespace).reverse⟩

/-- `impl From<&str> for AuditOutcome` (`scoring.rs` lines 61–74): an
exact-equality chain over the trimmed string, mirroring the Rust `match`
on `s.trim()`. -/
def auditOutcomeFromStr (s : String) : AuditOutcome :=
  let t := strTrim s
  if t = "Unqualified - No findings" then AuditOutcome.Clean
  else if t = "Unqualified - Emphasis of Matter items" then AuditOutcome.FinanciallyUnqualified
  else if t = "Qualified" then AuditOutcome.Qualified
  else if t = "Adverse" then AuditOutcome.Adverse
  else if t = "Disclaimer" then AuditOutcome.Disclaimer
  else if t = "Outstanding" then AuditOutcome.Unknown s
  else AuditOutcome.Unknown s

/-- `clamp_score` (`scoring.rs` lines 85–87). -/
def clamp_score (score : ℚ) : ℚ :=
  dclamp score 0 100

/-- `calculate_rev_per_cap_subscore` (`scoring.rs` lines 102–120). -/
def calculate_rev_per_cap_subscore
    (revenue_opt : Option ℚ) (population_opt : Option ℕ) : Option ℚ :=
  match revenue_opt with
  | none => none
  | some revenue =>
    match population_opt with
    | none => none
    | some population =>
      if 0 < population then
        let population_dec : ℚ := (population : ℚ)
        let rev_per_capita := revenue / population_dec
        let range := REV_PER_CAPITA_MAX - REV_PER_CAPITA_MIN
        if range ≤ 0 then
          some (if REV_PER_CAPITA_MAX ≤ rev_per_capita then 100 else 0)
        else
          let normalized_value :=
            dclamp ((rev_per_capita - REV_PER_CAPITA_MIN) / range) 0 1
          let score := normalized_value * 100
          some (clamp_score score)
      else none

/-- `calculate_debt_ratio_subscore` (`scoring.rs` lines 133–156). -/
def calculate_debt_ratio_subscore
    (debt_opt : Option ℚ) (revenue_opt : Option ℚ) : Option ℚ :=
  match debt_opt with
  | none => none
  | some debt =>
    match revenue_opt with
    | some r =>
      if 0 < r then
        let revenue := r
        let debt_ratio := debt / revenue
        let range := DEBT_RATIO_MAX - DEBT_RATIO_MIN
        if range ≤ 0 then
          some (if debt_ratio ≤ DEBT_RATIO_MIN then 100 else 0)
        else
          let normalized_position :=
            dclamp ((debt_ratio - DEBT_RATIO_MIN) / range) 0 1
          let score := (1 - normalized_position) * 100
          some (clamp_score score)
      else none
    | none => none

/-- `calculate_fin_health_score` (`scoring.rs` lines 169–184). -/
def calculate_fin_health_score
    (revenue_opt : Option ℚ) (debt_opt : Option ℚ)
    (population_opt : Option ℕ) : Option ℚ :=
  let WEIGHT_REV_PER_CAP : ℚ := 5 / 10
  let WEIGHT_DEBT_RATIO : ℚ := 5 / 10
  match calculate_rev_per_cap_subscore revenue_opt population_opt with
  | none => none
  | some rev_per_cap_score =>
    match calculate_debt_ratio_subscore debt_opt revenue_opt with
    | none => none
    | some debt_ratio_score =>
      some (rev_per_cap_score * WEIGHT_REV_PER_CAP
        + debt_ratio_score * WEIGHT_DEBT_RATIO)

/-- `calculate_infra_score` (`scoring.rs` lines 198–242). -/
def calculate_infra_score
    (operational_expenditure_opt : Option ℚ) (capex_opt : Option ℚ) :
    Option ℚ :=
  match operational_expenditure_opt with
  | none => none
  | some opex =>
    match capex_opt with
    | none => none
    | some capex =>
      let total_expenditure := opex + capex
      if total_expenditure ≤ 0 then
        some 0
      else
        let valid_capex := max capex 0
        let capex_ratio := valid_capex / total_expenditure
        let score :=
          if capex_ratio ≤ INFRA_RATIO_WORST then
            (0 : ℚ)
          else if capex_ratio < INFRA_RATIO_MID then
            let range := INFRA_RATIO_MID - INFRA_RATIO_WORST
            if 0 < range then
              (50 / range) * (capex_ratio - INFRA_RATIO_WORST)
            else 0
          else if capex_ratio < INFRA_RATIO_BEST then
            let score_mid_point : ℚ := 50
            let range := INFRA_RATIO_BEST - INFRA_RATIO_MID
            if 0 < range then
              score_mid_point
                + (100 - score_mid_point) * (capex_ratio - INFRA_RATIO_MID) / range
            else score_mid_point
          else 100
        some (clamp_score score)

/-- `calculate_efficiency_score` (`scoring.rs` lines 256–298). -/
def calculate_efficiency_score
    (operational_expenditure_opt : Option ℚ) (revenue_opt : Option ℚ) :
    Option ℚ :=
  match operational_expenditure_opt with
  | none => none
  | some opex =>
    match revenue_opt with
    | some r =>
      if 0 < r then
        let revenue := r
        let opex_ratio := opex / revenue
        let upper_range := EFFICIENCY_RATIO_MID - EFFICIENCY_RATIO_BEST
        let lower_range := EFFICIENCY_RATIO_WORST - EFFICIENCY_RATIO_MID
        let score_mid_point : ℚ := 50
        let score_max_point : ℚ := 100
        let score :=
          if opex_ratio ≤ EFFICIENCY_RATIO_BEST then
            score_max_point
          else if opex_ratio ≤ EFFICIENCY_RATIO_MID then
            if 0 < upper_range then
              score_max_point
                - (score_max_point - score_mid_point)
                  * (opex_ratio - EFFICIENCY_RATIO_BEST) / upper_range
            else score_mid_point
          else if opex_ratio < EFFICIENCY_RATIO_WORST then
            if 0 < lower_range then
              score_mid_point
                - score_mid_point * (opex_ratio - EFFICIENCY_RATIO_MID) / lower_range
            else 0
          else 0
        some (clamp_score score)
      else none
    | none => none

/-- `calculate_accountability_score` (`scoring.rs` lines 308–323). -/
def calculate_accountability_score (outcome_str_opt : Option String) : ℚ :=
  match outcome_str_opt with
  | some outcome_str =>
    match auditOutcomeFromStr outcome_str with
    | AuditOutcome.Clean => 100
    | AuditOutcome.FinanciallyUnqualified => 75
    | AuditOutcome.Qualified => 50
    | AuditOutcome.Adverse => 25
    | AuditOutcome.Disclaimer => 25
    | AuditOutcome.Unknown _ => 0
  | none => 0

/-- `calculate_financial_score` (`scoring.rs` lines 338–382). -/
def calculate_financial_score (input : ScoringInput) : Option ScoreBreakdown :=
  let fin_health_score :=
    (calculate_fin_health_score input.revenue input.debt input.population).getD 0
  let infra_score :=
    (calculate_infra_score input.operational_expenditure
      input.capital_expenditure).getD 0
  let efficiency_score :=
    (calculate_efficiency_score input.operational_expenditure
      input.revenue).getD 0
  let accountability_score :=
    calculate_accountability_score input.audit_outcome
  let overall_score :=
    fin_health_score * WEIGHT_FIN_HEALTH
      + infra_score * WEIGHT_INFRA
      + efficiency_score * WEIGHT_EFFICIENCY
      + accountability_score * WEIGHT_ACCOUNTABILITY
  let final_overall_score := clamp_score overall_score
  some
    { overall_score := final_overall_score
      financial_health_score := fin_health_score
      infrastructure_score := infra_score
      efficiency_score := efficiency_score
      accountability_score := accountability_score }

/-! ### Helper lemmas -/

theorem dclamp_le_of_le {x y lo hi : ℚ} (hlohi : lo ≤ hi) (h : x ≤ y) :
    dclamp x lo hi ≤ dclamp y lo hi := by
  unfold dclamp
  split_ifs <;> linarith

theorem dclamp_mem {x lo hi : ℚ} (h : lo ≤ hi) :
    lo ≤ dclamp x lo hi ∧ dclamp x lo hi ≤ hi := by
  unfold dclamp
  split_ifs <;> constructor <;> linarith

theorem dclamp_eq_self {x lo hi : ℚ} (h0 : lo ≤ x) (h1 : x ≤ hi) :
    dclamp x lo hi = x := by
  unfold dclamp
  split_ifs <;> linarith

theorem dclamp_eq_lo {x lo hi : ℚ} (h : x ≤ lo) (hlh : lo ≤ hi) :
    dclamp x lo hi = lo := by
  unfold dclamp
  split_ifs <;> linarith

theorem dclamp_eq_hi {x lo hi : ℚ} (h : hi ≤ x) (hlh : lo ≤ hi) :
    dclamp x lo hi = hi := by
  unfold dclamp
  split_ifs <;> linarith

theorem clamp_score_mem (x : ℚ) : 0 ≤ clamp_score x ∧ clamp_score x ≤ 100 :=
  dclamp_mem (by norm_num)

theorem clamp_score_eq_self {x : ℚ} (h0 : 0 ≤ x) (h1 : x ≤ 100) :
    clamp_score x = x :=
  dclamp_eq_self h0 h1

theorem clamp_score_le_of_le {x y : ℚ} (h : x ≤ y) :
    clamp_score x ≤ clamp_score y :=
  dclamp_le_of_le (by norm_num) h

theorem rev_per_cap_subscore_mem {r : Option ℚ} {p : Option ℕ} {s : ℚ}
    (h : calculate_rev_per_cap_subscore r p = some s) : 0 ≤ s ∧ s ≤ 100 := by
  cases r with
  | none => simp [calculate_rev_per_cap_subscore] at h
  | some rv =>
    cases p with
    | none => simp [calculate_rev_per_cap_subscore] at h
    | some pp =>
      simp only [calculate_rev_per_cap_subscore] at h
      split at h
      · split at h
        · rw [Option.some_inj] at h
          subst h
          split <;> norm_num
        · rw [Option.some_inj] at h
          subst h
          exact clamp_score_mem _
      · exact absurd h (by simp)

theorem debt_ratio_subscore_mem {d r : Option ℚ} {s : ℚ}
    (h : calculate_debt_ratio_subscore d r = some s) : 0 ≤ s ∧ s ≤ 100 := by
  cases d with
  | none => simp [calculate_debt_ratio_subscore] at h
  | some dv =>
    cases r with
    | none => simp [calculate_debt_ratio_subscore] at h
    | some rv =>
      simp only [calculate_debt_ratio_subscore] at h
      split at h
      · split at h
        · rw [Option.some_inj] at h
          subst h
          split <;> norm_num
        · rw [Option.some_inj] at h
          subst h
          exact clamp_score_mem _
      · exact absurd h (by simp)

theorem fin_health_score_mem {r d : Option ℚ} {p : Option ℕ} {s : ℚ}
    (h : calculate_fin_health_score r d p = some s) : 0 ≤ s ∧ s ≤ 100 := by
  simp only [calculate_fin_health_score] at h
  split at h
  · exact absurd h (by simp)
  · rename_i rev_score hrev
    split at h
    · exact absurd h (by simp)
    · rename_i debt_score hdebt
      rw [Option.some_inj] at h
      obtain ⟨h1, h2⟩ := rev_per_cap_subscore_mem hrev
      obtain ⟨h3, h4⟩ := debt_ratio_subscore_mem hdebt
      constructor <;> [nlinarith; nlinarith]

theorem infra_score_mem {o c : Option ℚ} {s : ℚ}
    (h : calculate_infra_score o c = some s) : 0 ≤ s ∧ s ≤ 100 := by
  cases o with
  | none => simp [calculate_infra_score] at h
  | some ov =>
    cases c with
    | none => simp [calculate_infra_score] at h
    | some cv =>
      simp only [calculate_infra_score] at h
      split at h
      · rw [Option.some_inj] at h
        subst h
        norm_num
      · rw [Option.some_inj] at h
        subst h
        exact clamp_score_mem _

theorem efficiency_score_mem {o r : Option ℚ} {s : ℚ}
    (h : calculate_efficiency_score o r = some s) : 0 ≤ s ∧ s ≤ 100 := by
  cases o with
  | none => simp [calculate_efficiency_score] at h
  | some ov =>
    cases r with
    | none => simp [calculate_efficiency_score] at h
    | some rv =>
      simp only [calculate_efficiency_score] at h
      split at h
      · rw [Option.some_inj] at h
        subst h
        exact clamp_score_mem _
      · exact absurd h (by simp)

theorem accountability_score_mem (o : Option String) :
    0 ≤ calculate_accountability_score o ∧
      calculate_accountability_score o ≤ 100 := by
  cases o with
  | none => simp [calculate_accountability_score]
  | some s =>
    simp only [calculate_accountability_score]
    cases h : auditOutcomeFromStr s <;> simp [h] <;> norm_num

theorem pillar_getD_mem {o : Option ℚ}
    (h : ∀ s, o = some s → 0 ≤ s ∧ s ≤ 100) :
    0 ≤ o.getD 0 ∧ o.getD 0 ≤ 100 := by
  cases o with
  | none => norm_num
  | some s => simpa using h s rfl

/-! ### Closed forms of the sub-score calculators on present inputs -/

theorem rev_per_cap_subscore_eq (r : ℚ) (p : ℕ) (hp : 0 < p) :
    calculate_rev_per_cap_subscore (some r) (some p)
      = some (clamp_score (dclamp ((r / (p : ℚ) - REV_PER_CAPITA_MIN)
          / (REV_PER_CAPITA_MAX - REV_PER_CAPITA_MIN)) 0 1 * 100)) := by
  simp only [calculate_rev_per_cap_subscore, hp, if_true]
  norm_num [REV_PER_CAPITA_MIN, REV_PER_CAPITA_MAX]

theorem debt_ratio_subscore_eq (d r : ℚ) (hr : 0 < r) :
    calculate_debt_ratio_subscore (some d) (some r)
      = some (clamp_score ((1 - dclamp ((d / r - DEBT_RATIO_MIN)
          / (DEBT_RATIO_MAX - DEBT_RATIO_MIN)) 0 1) * 100)) := by
  simp only [calculate_debt_ratio_subscore, hr, if_true]
  norm_num [DEBT_RATIO_MIN, DEBT_RATIO_MAX]

theorem infra_score_eq (o c : ℚ) (h : 0 < o + c) :
    calculate_infra_score (some o) (some c)
      = some (clamp_score
          (if max c 0 / (o + c) ≤ INFRA_RATIO_WORST then 0
           else if max c 0 / (o + c) < INFRA_RATIO_MID then
             (50 / (INFRA_RATIO_MID - INFRA_RATIO_WORST))
               * (max c 0 / (o + c) - INFRA_RATIO_WORST)
           else if max c 0 / (o + c) < INFRA_RATIO_BEST then
             50 + (100 - 50) * (max c 0 / (o + c) - INFRA_RATIO_MID)
               / (INFRA_RATIO_BEST - INFRA_RATIO_MID)
           else 100)) := by
  simp only [calculate_infra_score]
  rw [if_neg (not_le.mpr h)]
  norm_num [INFRA_RATIO_WORST, INFRA_RATIO_MID, INFRA_RATIO_BEST]

theorem efficiency_score_eq (o r : ℚ) (hr : 0 < r) :
    calculate_efficiency_score (some o) (some r)
      = some (clamp_score
          (if o / r ≤ EFFICIENCY_RATIO_BEST then 100
           else if o / r ≤ EFFICIENCY_RATIO_MID then
             100 - (100 - 50) * (o / r - EFFICIENCY_RATIO_BEST)
               / (EFFICIENCY_RATIO_MID - EFFICIENCY_RATIO_BEST)
           else if o / r < EFFICIENCY_RATIO_WORST then
             50 - 50 * (o / r - EFFICIENCY_RATIO_MID)
               / (EFFICIENCY_RATIO_WORST - EFFICIENCY_RATIO_MID)
           else 0)) := by
  simp only [calculate_efficiency_score, hr, if_true]
  norm_num [EFFICIENCY_RATIO_BEST, EFFICIENCY_RATIO_MID, EFFICIENCY_RATIO_WORST]

/-! ### Claims -/

/-- C1: for every `ScoringInput`, with any combination of present/absent
optional fields, `calculate_financial_score` returns a `ScoreBreakdown`
(never `none`) in which every one of the five score fields lies in
`[0, 100]`. -/
theorem C1_aggregate_total_and_in_range (input : ScoringInput) :
    ∃ b, calculate_financial_score input = some b ∧
      (0 ≤ b.overall_score ∧ b.overall_score ≤ 100) ∧
      (0 ≤ b.financial_health_score ∧ b.financial_health_score ≤ 100) ∧
      (0 ≤ b.infrastructure_score ∧ b.infrastructure_score ≤ 100) ∧
      (0 ≤ b.efficiency_score ∧ b.efficiency_score ≤ 100) ∧
      (0 ≤ b.accountability_score ∧ b.accountability_score ≤ 100) := by
  refine ⟨_, rfl, ?_, ?_, ?_, ?_, ?_⟩
  · exact clamp_score_mem _
  · exact pillar_getD_mem (fun s hs => fin_health_score_mem hs)
  · exact pillar_getD_mem (fun s hs => infra_score_mem hs)
  · exact pillar_getD_mem (fun s hs => efficiency_score_mem hs)
  · exact accountability_score_mem _

/-- C3: the four aggregation weights sum to exactly 1, and the returned
`overall_score` is the clamp to `[0, 100]` of the weighted sum of the
same four pillar values placed in the breakdown. -/
theorem C3_weight_conservation :
    (WEIGHT_FIN_HEALTH + WEIGHT_INFRA + WEIGHT_EFFICIENCY
        + WEIGHT_ACCOUNTABILITY = 1) ∧
    ∀ input : ScoringInput, ∃ b, calculate_financial_score input = some b ∧
      b.overall_score = clamp_score
        (WEIGHT_FIN_HEALTH * b.financial_health_score
          + WEIGHT_INFRA * b.infrastructure_score
          + WEIGHT_EFFICIENCY * b.efficiency_score
          + WEIGHT_ACCOUNTABILITY * b.accountability_score) := by
  constructor
  · norm_num [WEIGHT_FIN_HEALTH, WEIGHT_INFRA, WEIGHT_EFFICIENCY,
      WEIGHT_ACCOUNTABILITY]
  · intro input
    refine ⟨_, rfl, ?_⟩
    show clamp_score _ = clamp_score _
    congr 1
    ring

/-- C4: a pillar whose calculator returns `none` contributes a 0 score,
with the weights never renormalized (the overall score is always the
clamped full-weight sum of the four breakdown fields); the all-absent
input yields the all-zero breakdown. -/
theorem C4_missing_pillar_defaults :
    (∀ input : ScoringInput, ∀ b, calculate_financial_score input = some b →
      (calculate_fin_health_score input.revenue input.debt input.population
          = none → b.financial_health_score = 0) ∧
      (calculate_infra_score input.operational_expenditure
          input.capital_expenditure = none → b.infrastructure_score = 0) ∧
      (calculate_efficiency_score input.operational_expenditure
          input.revenue = none → b.efficiency_score = 0) ∧
      b.overall_score = clamp_score
        (WEIGHT_FIN_HEALTH * b.financial_health_score
          + WEIGHT_INFRA * b.infrastructure_score
          + WEIGHT_EFFICIENCY * b.efficiency_score
          + WEIGHT_ACCOUNTABILITY * b.accountability_score)) ∧
    calculate_financial_score
      { revenue := none, operational_expenditure := none,
        capital_expenditure := none, debt := none,
        audit_outcome := none, population := none }
      = some ⟨0, 0, 0, 0, 0⟩ := by
  constructor
  · intro input b hb
    simp only [calculate_financial_score, Option.some_inj] at hb
    subst hb
    refine ⟨?_, ?_, ?_, ?_⟩
    · intro h
      simp [h]
    · intro h
      simp [h]
    · intro h
      simp [h]
    · show clamp_score _ = clamp_score _
      congr 1
      ring
  · simp [calculate_financial_score, calculate_fin_health_score,
      calculate_rev_per_cap_subscore, calculate_infra_score,
      calculate_efficiency_score, calculate_accountability_score,
      clamp_score, dclamp]

/-- Witness for C4: instantiates the missing-pillar default at the
all-absent input, discharging the hypotheses concretely. -/
theorem C4_missing_pillar_defaults_witness :
    ScoreBreakdown.financial_health_score ⟨0, 0, 0, 0, 0⟩ = 0 :=
  (C4_missing_pillar_defaults.1
      { revenue := none, operational_expenditure := none,
        capital_expenditure := none, debt := none,
        audit_outcome := none, population := none }
      ⟨0, 0, 0, 0, 0⟩ C4_missing_pillar_defaults.2).1 rfl

/-- C7: for fixed population `p > 0`, the revenue-per-capita sub-score is
monotonically non-decreasing in the present revenue, and it saturates at
100 once revenue per capita reaches `REV_PER_CAPITA_MAX`. -/
theorem C7_rev_per_cap_monotone (p : ℕ) (r1 r2 : ℚ) (hp : 0 < p)
    (hr : r1 ≤ r2) :
    ∃ s1 s2,
      calculate_rev_per_cap_subscore (some r1) (some p) = some s1 ∧
      calculate_rev_per_cap_subscore (some r2) (some p) = some s2 ∧
      s1 ≤ s2 ∧ (REV_PER_CAPITA_MAX ≤ r2 / (p : ℚ) → s2 = 100) := by
  have hp' : (0 : ℚ) < (p : ℚ) := by exact_mod_cast hp
  have hrange : (0 : ℚ) < REV_PER_CAPITA_MAX - REV_PER_CAPITA_MIN := by
    norm_num [REV_PER_CAPITA_MIN, REV_PER_CAPITA_MAX]
  rw [rev_per_cap_subscore_eq r1 p hp, rev_per_cap_subscore_eq r2 p hp]
  refine ⟨_, _, rfl, rfl, ?_, ?_⟩
  · apply clamp_score_le_of_le
    apply mul_le_mul_of_nonneg_right _ (by norm_num : (0 : ℚ) ≤ 100)
    apply dclamp_le_of_le (by norm_num)
    gcongr
  · intro hsat
    have h2 : (1 : ℚ) ≤ (r2 / (p : ℚ) - REV_PER_CAPITA_MIN)
        / (REV_PER_CAPITA_MAX - REV_PER_CAPITA_MIN) := by
      rw [le_div_iff₀ hrange]
      norm_num [REV_PER_CAPITA_MIN, REV_PER_CAPITA_MAX] at hsat ⊢
      linarith
    rw [dclamp_eq_hi h2 (by norm_num)]
    norm_num [clamp_score, dclamp]

/-- C8: for fixed present revenue `r > 0`, the debt-ratio sub-score is
monotonically non-increasing in the present debt, saturating at 100 at or
below `DEBT_RATIO_MIN` and at 0 at or above `DEBT_RATIO_MAX`. -/
theorem C8_debt_ratio_antitone (r d1 d2 : ℚ) (hr : 0 < r) (hd : d1 ≤ d2) :
    ∃ s1 s2,
      calculate_debt_ratio_subscore (some d1) (some r) = some s1 ∧
      calculate_debt_ratio_subscore (some d2) (some r) = some s2 ∧
      s2 ≤ s1 ∧
      (d1 / r ≤ DEBT_RATIO_MIN → s1 = 100) ∧
      (DEBT_RATIO_MAX ≤ d2 / r → s2 = 0) := by
  have hrange : (0 : ℚ) < DEBT_RATIO_MAX - DEBT_RATIO_MIN := by
    norm_num [DEBT_RATIO_MIN, DEBT_RATIO_MAX]
  rw [debt_ratio_subscore_eq d1 r hr, debt_ratio_subscore_eq d2 r hr]
  refine ⟨_, _, rfl, rfl, ?_, ?_, ?_⟩
  · apply clamp_score_le_of_le
    apply mul_le_mul_of_nonneg_right _ (by norm_num : (0 : ℚ) ≤ 100)
    have h1 : dclamp ((d1 / r - DEBT_RATIO_MIN)
          / (DEBT_RATIO_MAX - DEBT_RATIO_MIN)) 0 1
        ≤ dclamp ((d2 / r - DEBT_RATIO_MIN)
          / (DEBT_RATIO_MAX - DEBT_RATIO_MIN)) 0 1 := by
      apply dclamp_le_of_le (by norm_num)
      gcongr
    linarith
  · intro hsat
    have h2 : (d1 / r - DEBT_RATIO_MIN)
        / (DEBT_RATIO_MAX - DEBT_RATIO_MIN) ≤ 0 := by
      apply div_nonpos_of_nonpos_of_nonneg _ hrange.le
      linarith
    rw [dclamp_eq_lo h2 (by norm_num)]
    norm_num [clamp_score, dclamp]
  · intro hsat
    have h2 : (1 : ℚ) ≤ (d2 / r - DEBT_RATIO_MIN)
        / (DEBT_RATIO_MAX - DEBT_RATIO_MIN) := by
      rw [le_div_iff₀ hrange]
      norm_num [DEBT_RATIO_MIN, DEBT_RATIO_MAX] at hsat ⊢
      linarith
    rw [dclamp_eq_hi h2 (by norm_num)]
    norm_num [clamp_score, dclamp]

/-- C10: a present negative operational expenditure together with a
present strictly positive revenue yields the maximal efficiency score
`some 100`: the negative opex/revenue ratio falls in the `≤ 0.85`
branch. -/
theorem C10_negative_opex_max_efficiency (o r : ℚ) (ho : o < 0)
    (hr : 0 < r) :
    calculate_efficiency_score (some o) (some r) = some 100 := by
  rw [efficiency_score_eq o r hr]
  have hneg : o / r < 0 := div_neg_of_neg_of_pos ho hr
  rw [if_pos (by norm_num [EFFICIENCY_RATIO_BEST]; linarith)]
  norm_num [clamp_score, dclamp]

/-- Witness for C10: opex −1, revenue 1. -/
theorem C10_negative_opex_max_efficiency_witness :
    calculate_efficiency_score (some (-1)) (some 1) = some 100 :=
  C10_negative_opex_max_efficiency (-1) 1 (by norm_num) (by norm_num)

/-- C5: the piecewise-linear curves are exact at their breakpoints, clamp
outside their domain, and interpolate linearly strictly inside each
segment, for both the infrastructure and the efficiency calculators. -/
theorem C5_breakpoint_exactness :
    (∀ o c : ℚ, 0 < o + c →
      ((max c 0 / (o + c) = INFRA_RATIO_MID →
          calculate_infra_score (some o) (some c) = some 50) ∧
       (INFRA_RATIO_BEST ≤ max c 0 / (o + c) →
          calculate_infra_score (some o) (some c) = some 100) ∧
       (max c 0 / (o + c) ≤ 0 →
          calculate_infra_score (some o) (some c) = some 0) ∧
       (0 < max c 0 / (o + c) → max c 0 / (o + c) < INFRA_RATIO_MID →
          calculate_infra_score (some o) (some c)
            = some ((50 / INFRA_RATIO_MID) * (max c 0 / (o + c)))) ∧
       (INFRA_RATIO_MID < max c 0 / (o + c) →
          max c 0 / (o + c) < INFRA_RATIO_BEST →
          calculate_infra_score (some o) (some c)
            = some (50 + 50 * (max c 0 / (o + c) - INFRA_RATIO_MID)
                / (INFRA_RATIO_BEST - INFRA_RATIO_MID))))) ∧
    (∀ o r : ℚ, 0 < r →
      ((o / r ≤ EFFICIENCY_RATIO_BEST →
          calculate_efficiency_score (some o) (some r) = some 100) ∧
       (o / r = EFFICIENCY_RATIO_MID →
          calculate_efficiency_score (some o) (some r) = some 50) ∧
       (EFFICIENCY_RATIO_WORST ≤ o / r →
          calculate_efficiency_score (some o) (some r) = some 0) ∧
       (EFFICIENCY_RATIO_BEST < o / r → o / r ≤ EFFICIENCY_RATIO_MID →
          calculate_efficiency_score (some o) (some r)
            = some (100 - 50 * (o / r - EFFICIENCY_RATIO_BEST)
                / (EFFICIENCY_RATIO_MID - EFFICIENCY_RATIO_BEST))) ∧
       (EFFICIENCY_RATIO_MID < o / r → o / r < EFFICIENCY_RATIO_WORST →
          calculate_efficiency_score (some o) (some r)
            = some (50 - 50 * (o / r - EFFICIENCY_RATIO_MID)
                / (EFFICIENCY_RATIO_WORST - EFFICIENCY_RATIO_MID))))) := by
  constructor
  · intro o c h
    rw [infra_score_eq o c h]
    norm_num [INFRA_RATIO_WORST, INFRA_RATIO_MID, INFRA_RATIO_BEST]
    set t := max c 0 / (o + c) with ht
    refine ⟨?_, ?_, ?_, ?_, ?_⟩
    · intro h1
      rw [h1]
      norm_num [clamp_score, dclamp]
    · intro h1
      rw [if_neg (not_le.mpr (by linarith)), if_neg (not_lt.mpr (by linarith)),
        if_neg (not_lt.mpr h1)]
      norm_num [clamp_score, dclamp]
    · intro h1
      rw [if_pos h1]
      norm_num [clamp_score, dclamp]
    · intro h1 h2
      rw [if_neg (not_le.mpr h1), if_pos h2]
      exact clamp_score_eq_self (by linarith) (by linarith)
    · intro h1 h2
      rw [if_neg (not_le.mpr (by linarith)), if_neg (not_lt.mpr h1.le),
        if_pos h2]
      exact clamp_score_eq_self (by linarith) (by linarith)
  · intro o r hr
    rw [efficiency_score_eq o r hr]
    norm_num [EFFICIENCY_RATIO_BEST, EFFICIENCY_RATIO_MID,
      EFFICIENCY_RATIO_WORST]
    set x := o / r with hx
    refine ⟨?_, ?_, ?_, ?_, ?_⟩
    · intro h1
      rw [if_pos h1]
      norm_num [clamp_score, dclamp]
    · intro h1
      rw [h1]
      norm_num [clamp_score, dclamp]
    · intro h1
      rw [if_neg (not_le.mpr (by linarith)), if_neg (not_le.mpr (by linarith)),
        if_neg (not_lt.mpr h1)]
      norm_num [clamp_score, dclamp]
    · intro h1 h2
      rw [if_neg (not_le.mpr h1), if_pos h2]
      exact clamp_score_eq_self (by linarith) (by linarith)
    · intro h1 h2
      rw [if_neg (not_le.mpr (by linarith)), if_neg (not_le.mpr h1),
        if_pos h2]
      exact clamp_score_eq_self (by linarith) (by linarith)

/-- Witness for C5: an infrastructure ratio of exactly 0.10
(capex 10, opex 90) scores 50, and an efficiency ratio of 0.85
(opex 85, revenue 100) scores 100. -/
theorem C5_breakpoint_exactness_witness :
    calculate_infra_score (some 90) (some 10) = some 50 ∧
    calculate_efficiency_score (some 85) (some 100) = some 100 :=
  ⟨(C5_breakpoint_exactness.1 90 10 (by norm_num)).1
      (by norm_num [INFRA_RATIO_MID]),
   (C5_breakpoint_exactness.2 85 100 (by norm_num)).1
      (by norm_num [EFFICIENCY_RATIO_BEST])⟩

/-- C9: with both expenditure fields present and a non-positive total,
the infrastructure calculator returns `some 0`, not `none`; it returns
`none` exactly when at least one expenditure field is absent. -/
theorem C9_infra_zero_total :
    (∀ o c : ℚ, o + c ≤ 0 →
      calculate_infra_score (some o) (some c) = some 0) ∧
    (∀ o c : Option ℚ,
      calculate_infra_score o c = none ↔ o = none ∨ c = none) := by
  constructor
  · intro o c h
    simp only [calculate_infra_score]
    rw [if_pos h]
  · intro o c
    constructor
    · intro h
      by_contra hne
      push_neg at hne
      obtain ⟨ho, hc⟩ := hne
      obtain ⟨ov, rfl⟩ := Option.ne_none_iff_exists'.mp ho
      obtain ⟨cv, rfl⟩ := Option.ne_none_iff_exists'.mp hc
      simp only [calculate_infra_score] at h
      split at h <;> simp at h
    · rintro (rfl | rfl)
      · rfl
      · cases o <;> rfl

/-- Witness for C9: a zero-expenditure municipality is scored 0, and an
absent expenditure yields `none`. -/
theorem C9_infra_zero_total_witness :
    calculate_infra_score (some 0) (some 0) = some 0 ∧
    calculate_infra_score none none = none :=
  ⟨C9_infra_zero_total.1 0 0 (by norm_num),
   (C9_infra_zero_total.2 none none).mpr (Or.inl rfl)⟩

/-- Counterexample to C2: the spec's label "Clean Audit" is not one of
the strings matched by the code, so it scores 0, not the claimed 100. -/
theorem C2_counterexample :
    calculate_accountability_score (some "Clean Audit") = 0 ∧
    calculate_accountability_score (some "Clean Audit") ≠ 100 := by
  have h : calculate_accountability_score (some "Clean Audit") = 0 := by
    simp [calculate_accountability_score, auditOutcomeFromStr, strTrim]
  refine ⟨h, ?_⟩
  rw [h]
  norm_num

/-- C2 (amended): classification of an audit-outcome string is by exact
match on the trimmed text against the code's label table:
"Unqualified - No findings" scores 100, "Unqualified - Emphasis of
Matter items" 75, "Qualified" 50, "Adverse" 25, "Disclaimer" 25; every
other string (the empty string, the spec's labels such as "Clean Audit",
and "Outstanding" included) as well as an absent outcome scores 0. -/
theorem C2_accountability_table :
    calculate_accountability_score (some "Unqualified - No findings") = 100 ∧
    calculate_accountability_score
      (some "Unqualified - Emphasis of Matter items") = 75 ∧
    calculate_accountability_score (some "Qualified") = 50 ∧
    calculate_accountability_score (some "Adverse") = 25 ∧
    calculate_accountability_score (some "Disclaimer") = 25 ∧
    calculate_accountability_score (some "Outstanding") = 0 ∧
    calculate_accountability_score (some "") = 0 ∧
    calculate_accountability_score none = 0 ∧
    (∀ s : String,
      strTrim s ≠ "Unqualified - No findings" →
      strTrim s ≠ "Unqualified - Emphasis of Matter items" →
      strTrim s ≠ "Qualified" →
      strTrim s ≠ "Adverse" →
      strTrim s ≠ "Disclaimer" →
      calculate_accountability_score (some s) = 0) := by
  refine ⟨?_, ?_, ?_, ?_, ?_, ?_, ?_, rfl, ?_⟩
  · simp [calculate_accountability_score, auditOutcomeFromStr, strTrim]
  · simp [calculate_accountability_score, auditOutcomeFromStr, strTrim]
  · simp [calculate_accountability_score, auditOutcomeFromStr, strTrim]
  · simp [calculate_accountability_score, auditOutcomeFromStr, strTrim]
  · simp [calculate_accountability_score, auditOutcomeFromStr, strTrim]
  · simp [calculate_accountability_score, auditOutcomeFromStr, strTrim]
  · simp [calculate_accountability_score, auditOutcomeFromStr, strTrim]
  · intro s h1 h2 h3 h4 h5
    simp only [calculate_accountability_score, auditOutcomeFromStr]
    rw [if_neg h1, if_neg h2, if_neg h3, if_neg h4, if_neg h5]
    rcases eq_or_ne (strTrim s) "Outstanding" with h6 | h6
    · rw [if_pos h6]
    · rw [if_neg h6]

/-- Witness for C2 (amended): an unmapped label scores 0. -/
theorem C2_accountability_table_witness :
    calculate_accountability_score (some "Some Unmapped Text") = 0 :=
  C2_accountability_table.2.2.2.2.2.2.2.2 "Some Unmapped Text"
    (by decide) (by decide) (by decide) (by decide) (by decide)

/-!
Division-checked re-embedding (claim C6).

Each `a / b` of the scoring core is replaced by `divChk a b`, which
fails (`Except.error ()`) unless the code's own guard — the divisor is
strictly positive — has actually been established at that program
point.  Proving the checked functions equal to `Except.ok` of the plain
ones shows no division-by-zero branch is reachable for any input.
-/

def divChk (a b : ℚ) : Except Unit ℚ :=
  if 0 < b then Except.ok (a / b) else Except.error ()

/-- Division-checked `calculate_rev_per_cap_subscore`. -/
def calculate_rev_per_cap_subscore_chk
    (revenue_opt : Option ℚ) (population_opt : Option ℕ) :
    Except Unit (Option ℚ) :=
  match revenue_opt with
  | none => Except.ok none
  | some revenue =>
    match population_opt with
    | none => Except.ok none
    | some population =>
      if 0 < population then
        match divChk revenue ((population : ℕ) : ℚ) with
        | Except.error e => Except.error e
        | Except.ok rev_per_capita =>
          let range := REV_PER_CAPITA_MAX - REV_PER_CAPITA_MIN
          if range ≤ 0 then
            Except.ok (some (if REV_PER_CAPITA_MAX ≤ rev_per_capita
              then 100 else 0))
          else
            match divChk (rev_per_capita - REV_PER_CAPITA_MIN) range with
            | Except.error e => Except.error e
            | Except.ok q =>
              Except.ok (some (clamp_score (dclamp q 0 1 * 100)))
      else Except.ok none

/-- Division-checked `calculate_debt_ratio_subscore`. -/
def calculate_debt_ratio_subscore_chk
    (debt_opt : Option ℚ) (revenue_opt : Option ℚ) :
    Except Unit (Option ℚ) :=
  match debt_opt with
  | none => Except.ok none
  | some debt =>
    match revenue_opt with
    | some r =>
      if 0 < r then
        match divChk debt r with
        | Except.error e => Except.error e
        | Except.ok debt_ratio =>
          let range := DEBT_RATIO_MAX - DEBT_RATIO_MIN
          if range ≤ 0 then
            Except.ok (some (if debt_ratio ≤ DEBT_RATIO_MIN
              then 100 else 0))
          else
            match divChk (debt_ratio - DEBT_RATIO_MIN) range with
            | Except.error e => Except.error e
            | Except.ok q =>
              Except.ok (some (clamp_score ((1 - dclamp q 0 1) * 100)))
      else Except.ok none
    | none => Except.ok none

/-- Division-checked `calculate_fin_health_score`; the revenue sub-score
is computed first, exactly as in the source (`?` short-circuits). -/
def calculate_fin_health_score_chk
    (revenue_opt : Option ℚ) (debt_opt : Option ℚ)
    (population_opt : Option ℕ) : Except Unit (Option ℚ) :=
  match calculate_rev_per_cap_subscore_chk revenue_opt population_opt with
  | Except.error e => Except.error e
  | Except.ok none => Except.ok none
  | Except.ok (some rev_per_cap_score) =>
    match calculate_debt_ratio_subscore_chk debt_opt revenue_opt with
    | Except.error e => Except.error e
    | Except.ok none => Except.ok none
    | Except.ok (some debt_ratio_score) =>
      Except.ok (some (rev_per_cap_score * (5 / 10)
        + debt_ratio_score * (5 / 10)))

/-- Division-checked `calculate_infra_score`. -/
def calculate_infra_score_chk
    (operational_expenditure_opt : Option ℚ) (capex_opt : Option ℚ) :
    Except Unit (Option ℚ) :=
  match operational_expenditure_opt with
  | none => Except.ok none
  | some opex =>
    match capex_opt with
    | none => Except.ok none
    | some capex =>
      let total_expenditure := opex + capex
      if total_expenditure ≤ 0 then
        Except.ok (some 0)
      else
        match divChk (max capex 0) total_expenditure with
        | Except.error e => Except.error e
        | Except.ok capex_ratio =>
          if capex_ratio ≤ INFRA_RATIO_WORST then
            Except.ok (some (clamp_score 0))
          else if capex_ratio < INFRA_RATIO_MID then
            if 0 < INFRA_RATIO_MID - INFRA_RATIO_WORST then
              match divChk 50 (INFRA_RATIO_MID - INFRA_RATIO_WORST) with
              | Except.error e => Except.error e
              | Except.ok slope =>
                Except.ok (some (clamp_score
                  (slope * (capex_ratio - INFRA_RATIO_WORST))))
            else Except.ok (some (clamp_score 0))
          else if capex_ratio < INFRA_RATIO_BEST then
            if 0 < INFRA_RATIO_BEST - INFRA_RATIO_MID then
              match divChk ((100 - 50) * (capex_ratio - INFRA_RATIO_MID))
                  (INFRA_RATIO_BEST - INFRA_RATIO_MID) with
              | Except.error e => Except.error e
              | Except.ok seg =>
                Except.ok (some (clamp_score (50 + seg)))
            else Except.ok (some (clamp_score 50))
          else Except.ok (some (clamp_score 100))

/-- Division-checked `calculate_efficiency_score`. -/
def calculate_efficiency_score_chk
    (operational_expenditure_opt : Option ℚ) (revenue_opt : Option ℚ) :
    Except Unit (Option ℚ) :=
  match operational_expenditure_opt with
  | none => Except.ok none
  | some opex =>
    match revenue_opt with
    | some r =>
      if 0 < r then
        match divChk opex r with
        | Except.error e => Except.error e
        | Except.ok opex_ratio =>
          if opex_ratio ≤ EFFICIENCY_RATIO_BEST then
            Except.ok (some (clamp_score 100))
          else if opex_ratio ≤ EFFICIENCY_RATIO_MID then
            if 0 < EFFICIENCY_RATIO_MID - EFFICIENCY_RATIO_BEST then
              match divChk ((100 - 50) * (opex_ratio - EFFICIENCY_RATIO_BEST))
                  (EFFICIENCY_RATIO_MID - EFFICIENCY_RATIO_BEST) with
              | Except.error e => Except.error e
              | Except.ok seg => Except.ok (some (clamp_score (100 - seg)))
            else Except.ok (some (clamp_score 50))
          else if opex_ratio < EFFICIENCY_RATIO_WORST then
            if 0 < EFFICIENCY_RATIO_WORST - EFFICIENCY_RATIO_MID then
              match divChk (50 * (opex_ratio - EFFICIENCY_RATIO_MID))
                  (EFFICIENCY_RATIO_WORST - EFFICIENCY_RATIO_MID) with
              | Except.error e => Except.error e
              | Except.ok seg => Except.ok (some (clamp_score (50 - seg)))
            else Except.ok (some (clamp_score 0))
          else Except.ok (some (clamp_score 0))
      else Except.ok none
    | none => Except.ok none

/-- Division-checked `calculate_financial_score` (accountability performs
no division). -/
def calculate_financial_score_chk (input : ScoringInput) :
    Except Unit (Option ScoreBreakdown) :=
  match calculate_fin_health_score_chk input.revenue input.debt
      input.population with
  | Except.error e => Except.error e
  | Except.ok fh =>
    match calculate_infra_score_chk input.operational_expenditure
        input.capital_expenditure with
    | Except.error e => Except.error e
    | Except.ok infra =>
      match calculate_efficiency_score_chk input.operational_expenditure
          input.revenue with
      | Except.error e => Except.error e
      | Except.ok eff =>
        let fin_health_score := fh.getD 0
        let infra_score := infra.getD 0
        let efficiency_score := eff.getD 0
        let accountability_score :=
          calculate_accountability_score input.audit_outcome
        Except.ok (some
          { overall_score := clamp_score
              (fin_health_score * WEIGHT_FIN_HEALTH
                + infra_score * WEIGHT_INFRA
                + efficiency_score * WEIGHT_EFFICIENCY
                + accountability_score * WEIGHT_ACCOUNTABILITY)
            financial_health_score := fin_health_score
            infrastructure_score := infra_score
            efficiency_score := efficiency_score
            accountability_score := accountability_score })

theorem rev_per_cap_chk_ok (r : Option ℚ) (p : Option ℕ) :
    calculate_rev_per_cap_subscore_chk r p
      = Except.ok (calculate_rev_per_cap_subscore r p) := by
  have hr : ¬(REV_PER_CAPITA_MAX - REV_PER_CAPITA_MIN ≤ 0) := by
    norm_num [REV_PER_CAPITA_MAX, REV_PER_CAPITA_MIN]
  have hr' : (0 : ℚ) < REV_PER_CAPITA_MAX - REV_PER_CAPITA_MIN :=
    lt_of_not_le hr
  cases r with
  | none => rfl
  | some rv =>
    cases p with
    | none => rfl
    | some pp =>
      by_cases hp : 0 < pp
      · have hpq : (0 : ℚ) < (pp : ℚ) := by exact_mod_cast hp
        simp [calculate_rev_per_cap_subscore_chk,
          calculate_rev_per_cap_subscore, divChk, hp, hpq, hr, hr']
      · simp [calculate_rev_per_cap_subscore_chk,
          calculate_rev_per_cap_subscore, hp]

theorem debt_ratio_chk_ok (d r : Option ℚ) :
    calculate_debt_ratio_subscore_chk d r
      = Except.ok (calculate_debt_ratio_subscore d r) := by
  have hg : ¬(DEBT_RATIO_MAX - DEBT_RATIO_MIN ≤ 0) := by
    norm_num [DEBT_RATIO_MAX, DEBT_RATIO_MIN]
  have hg' : (0 : ℚ) < DEBT_RATIO_MAX - DEBT_RATIO_MIN := lt_of_not_le hg
  cases d with
  | none => rfl
  | some dv =>
    cases r with
    | none => rfl
    | some rv =>
      by_cases hrv : 0 < rv
      · simp [calculate_debt_ratio_subscore_chk,
          calculate_debt_ratio_subscore, divChk, hrv, hg, hg']
      · simp [calculate_debt_ratio_subscore_chk,
          calculate_debt_ratio_subscore, hrv]

theorem fin_health_chk_ok (r d : Option ℚ) (p : Option ℕ) :
    calculate_fin_health_score_chk r d p
      = Except.ok (calculate_fin_health_score r d p) := by
  simp only [calculate_fin_health_score_chk, calculate_fin_health_score,
    rev_per_cap_chk_ok, debt_ratio_chk_ok]
  cases calculate_rev_per_cap_subscore r p with
  | none => rfl
  | some a =>
    cases calculate_debt_ratio_subscore d r with
    | none => rfl
    | some b => rfl

theorem infra_chk_ok (o c : Option ℚ) :
    calculate_infra_score_chk o c
      = Except.ok (calculate_infra_score o c) := by
  have h1 : (0 : ℚ) < INFRA_RATIO_MID - INFRA_RATIO_WORST := by
    norm_num [INFRA_RATIO_MID, INFRA_RATIO_WORST]
  have h2 : (0 : ℚ) < INFRA_RATIO_BEST - INFRA_RATIO_MID := by
    norm_num [INFRA_RATIO_BEST, INFRA_RATIO_MID]
  cases o with
  | none => rfl
  | some ov =>
    cases c with
    | none => rfl
    | some cv =>
      by_cases ht : ov + cv ≤ 0
      · simp [calculate_infra_score_chk, calculate_infra_score, ht]
      · have ht' : (0 : ℚ) < ov + cv := lt_of_not_le ht
        simp only [calculate_infra_score_chk, calculate_infra_score,
          divChk, if_neg ht, if_pos ht', if_pos h1, if_pos h2]
        split_ifs <;> rfl

theorem efficiency_chk_ok (o r : Option ℚ) :
    calculate_efficiency_score_chk o r
      = Except.ok (calculate_efficiency_score o r) := by
  have h1 : (0 : ℚ) < EFFICIENCY_RATIO_MID - EFFICIENCY_RATIO_BEST := by
    norm_num [EFFICIENCY_RATIO_MID, EFFICIENCY_RATIO_BEST]
  have h2 : (0 : ℚ) < EFFICIENCY_RATIO_WORST - EFFICIENCY_RATIO_MID := by
    norm_num [EFFICIENCY_RATIO_WORST, EFFICIENCY_RATIO_MID]
  cases o with
  | none => rfl
  | some ov =>
    cases r with
    | none => rfl
    | some rv =>
      by_cases hrv : 0 < rv
      · simp only [calculate_efficiency_score_chk,
          calculate_efficiency_score, divChk, if_pos hrv, if_pos h1,
          if_pos h2]
        split_ifs <;> rfl
      · simp [calculate_efficiency_score_chk, calculate_efficiency_score,
          hrv]

theorem financial_score_chk_ok (input : ScoringInput) :
    calculate_financial_score_chk input
      = Except.ok (calculate_financial_score input) := by
  simp only [calculate_financial_score_chk, calculate_financial_score,
    fin_health_chk_ok, infra_chk_ok, efficiency_chk_ok]

/-- C6: every division in the scoring core sits behind the code's own
strict-positivity guard on its divisor — the division-checked
re-embedding never reaches its error branch — and in particular a
present revenue of 0 together with a present debt makes the debt-ratio
sub-score `none`, the financial-health pillar `none`, and its
contribution 0. -/
theorem C6_no_division_by_zero :
    (∀ input : ScoringInput,
      calculate_financial_score_chk input
        = Except.ok (calculate_financial_score input)) ∧
    (∀ d r : ℚ, r ≤ 0 →
      calculate_debt_ratio_subscore (some d) (some r) = none) ∧
    (∀ input : ScoringInput, ∀ b, input.revenue = some 0 →
      input.debt ≠ none → calculate_financial_score input = some b →
      b.financial_health_score = 0) := by
  refine ⟨financial_score_chk_ok, ?_, ?_⟩
  · intro d r hr
    simp only [calculate_debt_ratio_subscore]
    rw [if_neg (not_lt.mpr hr)]
  · intro input b hrev hdebt hb
    obtain ⟨dv, hd⟩ := Option.ne_none_iff_exists'.mp hdebt
    have hds : calculate_debt_ratio_subscore input.debt input.revenue
        = none := by
      rw [hrev, hd]
      simp [calculate_debt_ratio_subscore]
    have hfin : calculate_fin_health_score input.revenue input.debt
        input.population = none := by
      simp only [calculate_fin_health_score]
      cases hrs : calculate_rev_per_cap_subscore input.revenue
          input.population with
      | none => rfl
      | some a => rw [hds]
    simp only [calculate_financial_score, Option.some_inj] at hb
    subst hb
    simp [hfin]

/-- Witness for C6: debt 100 against revenue 0 yields `none` for the
debt-ratio sub-score, and the resulting breakdown carries a 0
financial-health pillar. -/
theorem C6_no_division_by_zero_witness :
    calculate_debt_ratio_subscore (some 100) (some 0) = none ∧
    ScoreBreakdown.financial_health_score ⟨0, 0, 0, 0, 0⟩ = 0 :=
  ⟨C6_no_division_by_zero.2.1 100 0 (by norm_num),
   C6_no_division_by_zero.2.2
     { revenue := some 0, operational_expenditure := none,
       capital_expenditure := none, debt := some 100,
       audit_outcome := none, population := none }
     ⟨0, 0, 0, 0, 0⟩ rfl (by simp)
     (by simp [calculate_financial_score, calculate_fin_health_score,
       calculate_rev_per_cap_subscore, calculate_debt_ratio_subscore,
       calculate_infra_score, calculate_efficiency_score,
       calculate_accountability_score, clamp_score, dclamp])⟩

/-- Witness for C7: population 1, revenues 0 ≤ 14000; the larger revenue
sits at the saturation ceiling. -/
theorem C7_rev_per_cap_monotone_witness :
    ∃ s1 s2,
      calculate_rev_per_cap_subscore (some 0) (some 1) = some s1 ∧
      calculate_rev_per_cap_subscore (some 14000) (some 1) = some s2 ∧
      s1 ≤ s2 ∧
      (REV_PER_CAPITA_MAX ≤ 14000 / ((1 : ℕ) : ℚ) → s2 = 100) :=
  C7_rev_per_cap_monotone 1 0 14000 (by norm_num) (by norm_num)

/-- Witness for C8: revenue 10, debts 0 ≤ 100; the smaller debt is below
the floor and the larger debt above the ceiling. -/
theorem C8_debt_ratio_antitone_witness :
    ∃ s1 s2,
      calculate_debt_ratio_subscore (some 0) (some 10) = some s1 ∧
      calculate_debt_ratio_subscore (some 100) (some 10) = some s2 ∧
      s2 ≤ s1 ∧
      ((0 : ℚ) / 10 ≤ DEBT_RATIO_MIN → s1 = 100) ∧
      (DEBT_RATIO_MAX ≤ (100 : ℚ) / 10 → s2 = 0) :=
  C8_debt_ratio_antitone 10 0 100 (by norm_num) (by norm_num)
